import Mathlib

/-!
Verification of the training-recommendation engine in `app.py`
(class `TrainingRecommendationSystem`).

The Python code is shallowly embedded: Python `float` scores become `ℚ`
(the engine only adds, subtracts, multiplies and compares decimal values),
Python dicts with a fixed key set become structures, the competency-score
dicts and the static catalog dicts become association lists in source
order (Python dicts iterate in insertion order), and Python's stable
`sorted`/`list.sort` becomes `List.insertionSort`, which is also stable.
`list(set(xs))` has no specified order in Python; it is modelled as
first-occurrence deduplication.  `datetime.now().strftime('%Y-%m-%d')`
is an ambient input and becomes an explicit `today` parameter.
-/

set_option allowUnsafeReducibility true
attribute [local semireducible] Rat.ofScientific Rat.mul Rat.inv Rat.add Rat.sub

/-! ### String helpers

The engine only manipulates ASCII strings.  Python's `str.lower()`,
`str.upper()`, substring test `a in b`, `str.split()` and
`str.replace(' ', '_')` are modelled on the character lists. -/

/-- ASCII lower-casing of one character, as Python `str.lower` acts on the
catalog's ASCII data. -/
def lowerChar (c : Char) : Char :=
  if 65 ≤ c.toNat ∧ c.toNat ≤ 90 then Char.ofNat (c.toNat + 32) else c

/-- Python `s.lower()` on ASCII strings. -/
def lowerStr (s : String) : String :=
  String.mk (s.toList.map lowerChar)

/-- ASCII upper-casing of one character. -/
def upperChar (c : Char) : Char :=
  if 97 ≤ c.toNat ∧ c.toNat ≤ 122 then Char.ofNat (c.toNat - 32) else c

/-- Python `s.replace(" ", "_").upper()` from `get_training_details`'s
generic-template branch: spaces become underscores, letters are upper-cased
(the two operations commute with each other, so one pass is exact). -/
def underscoreUpper (s : String) : String :=
  String.mk (s.toList.map (fun c => if c = ' ' then '_' else upperChar c))

/-- `isInfixChars needle hay` decides whether `needle` occurs as a
contiguous run inside `hay`. -/
def isInfixChars : List Char → List Char → Bool
  | needle, [] => needle.isEmpty
  | needle, c :: cs => needle.isPrefixOf (c :: cs) || isInfixChars needle cs

/-- Python's substring test `needle in hay`. -/
def strContains (hay needle : String) : Bool :=
  isInfixChars needle.toList hay.toList

/-- Helper for Python `s.split()`: accumulates the current word (reversed)
while scanning the character list. -/
def wordsAux : List Char → List Char → List String
  | acc, [] => if acc.isEmpty then [] else [String.mk acc.reverse]
  | acc, c :: cs =>
    if c.isWhitespace then
      if acc.isEmpty then wordsAux [] cs
      else String.mk acc.reverse :: wordsAux [] cs
    else wordsAux (c :: acc) cs

/-- Python `s.split()` with no separator: whitespace-delimited words,
empty strings dropped. -/
def pyWords (s : String) : List String := wordsAux [] s.toList

/-! ### Data model -/

/-- One catalog entry of `setup_training_database`, without its dict key
(the key is the training id). -/
structure TrainingInfo where
  training_name : String
  school : String
  target_division : String
  target_level : String
  duration_days : ℕ
  cost : ℕ
  job_family : String
  learning_objectives : List String
deriving DecidableEq

/-- A training record as handed out by `get_training_details`: the catalog
entry merged with its id, `{**details, 'training_id': training_id}`. -/
structure TrainingRecord extends TrainingInfo where
  training_id : String
deriving DecidableEq

/-- The `assessment_data` dict handed to `recommend_training`.
`employee_id` is optional because the code reads it with
`.get('employee_id', 'Unknown')`; the remaining fields are read with
defaults `''` resp. `{}`, so a plain string / empty list stands for an
absent key.  Score dicts are association lists in insertion order with
distinct keys (§3 invariant of the assessment form). -/
structure Assessment where
  employee_id : Option String
  current_position : String
  division : String
  experience_level : String
  core_competency_scores : List (String × ℚ)
  managerial_competency_scores : List (String × ℚ)
  leadership_competency_scores : List (String × ℚ)
deriving DecidableEq

/-- The intermediate recommendation dict built inside `recommend_training`. -/
structure Recommendation where
  competency_gap : String
  current_score : ℚ
  training_details : TrainingRecord
  relevance_score : ℚ
  priority_level : ℕ
  expected_improvement : ℚ
  timeline : String
deriving DecidableEq

/-- One formatted entry of `response['recommendations']` built in
`_build_response`. -/
structure FormattedRecommendation where
  priority : ℕ
  competency_gap : String
  current_score : ℚ
  target_score : ℚ
  recommended_training : TrainingRecord
  relevance_score : ℚ
  expected_improvement : ℚ
  timeline : String
deriving DecidableEq

/-- `response['development_path']`. -/
structure DevelopmentPath where
  critical : List String
  high_priority : List String
  medium_priority : List String
deriving DecidableEq

/-- `response['summary']`. -/
structure Summary where
  total_recommendations : ℕ
  total_estimated_cost : ℕ
  total_estimated_duration : ℕ
deriving DecidableEq

/-- The response dict of `recommend_training`.  `error`, `assessment_date`
and `development_path` are optional because the error-shaped response dict
(lines 662-667) carries an `error` key but neither `assessment_date` nor
`development_path`, while the normal response carries the latter two and
no `error` key. -/
structure Response where
  error : Option String
  employee_id : String
  assessment_date : Option String
  recommendations : List FormattedRecommendation
  development_path : Option DevelopmentPath
  summary : Summary
deriving DecidableEq

/-! ### Static catalog (`setup_competency_mapping`, `setup_division_mapping`,
`setup_training_database`), in source order -/

/-- `self.competency_training_mapping`. -/
def competency_training_mapping : List (String × List String) :=
  [("core_information_seeking", ["Teknologi Informasi", "Strategi SDM"]),
   ("core_resilience", ["SDM", "Program Keahlian Khusus"]),
   ("core_achievement_orientation", ["Strategi SDM", "Financial Management for Leader"]),
   ("core_concern_for_order", ["Audit Internal & Manajemen Risiko", "Akuntansi & Keuangan"]),
   ("core_organizational_commitment", ["SDM", "Strategi SDM"]),
   ("core_ethical_oriented", ["Hukum", "Audit Internal dan Manajemen Risiko"]),
   ("managerial_building_collaborative_relationship", ["SDM", "Strategi Pemasaran"]),
   ("managerial_business_savvy", ["Agribusiness Productivity Institute", "Strategi SDM"]),
   ("managerial_customer_focus", ["Strategi Pemasaran", "Agribusiness Productivity Institute"]),
   ("managerial_strategic_orientation", ["Transformasi Strategis", "Strategi Transfrormasi"]),
   ("managerial_sustainability_mindset", ["Operasional Tanaman Tebu (On Farm)", "Operasional Tanaman Sawit (On Farm)"]),
   ("managerial_execution_focused", ["Operasional Pabrik Kelapa Sawit (Off Farm)", "Operasional Tanaman Karet (On Farm)"]),
   ("managerial_digital_literate", ["Teknologi Informasi", "Transformasi Strategis"]),
   ("leadership_creativity_innovation", ["Transformasi Strategis", "Strategi Transfrormasi"]),
   ("leadership_transformational_leadership", ["SDM", "Strategi SDM"]),
   ("leadership_nurturing_empowering_people", ["SDM", "Program Keahlian Khusus"]),
   ("leadership_managing_equality_diversity", ["SDM", "Hukum"])]

/-- `self.division_mapping`. -/
def division_mapping : List (String × List String) :=
  [("plantation", ["Operasional Tanaman", "Agribusiness Productivity Institute"]),
   ("factory", ["Operasional Pabrik"]),
   ("finance", ["Akuntansi & Keuangan", "Financial Management"]),
   ("hr", ["SDM", "Strategi SDM"]),
   ("it", ["Teknologi Informasi"]),
   ("procurement", ["Pengadaan"]),
   ("audit", ["Audit Internal"]),
   ("legal", ["Hukum"]),
   ("strategy", ["Transformasi Strategis", "Strategi"]),
   ("marketing", ["Strategi Pemasaran"])]

/-- `self.training_database`, id → entry, in source order. -/
def training_database : List (String × TrainingInfo) :=
  [("PL-2024-418",
    { training_name := "PENDEKATAN LOGIKA MENGIDENTIFIKASI ANOMALI PRODUKSI"
      school := "Agribusiness Productivity Institute"
      target_division := "plantation"
      target_level := "ALL"
      duration_days := 3
      cost := 6000000
      job_family := "Tanaman"
      learning_objectives :=
        ["Integrasi geospike dan lingkungan di perkebunan",
         "Seasonal effect di tanaman sawit",
         "Prinsip dasar pemahaman data produksi",
         "Metode identifikasi anomali di perkebunan"] }),
   ("PL-2024-P0153",
    { training_name := "Budidaya Tanaman Tebu - Persiapan Lahan & Kultivasi"
      school := "Operasional Tanaman Tebu (On Farm)"
      target_division := "plantation"
      target_level := "Operasional"
      duration_days := 5
      cost := 5000000
      job_family := "Tanaman"
      learning_objectives :=
        ["Teknik dasar kultivasi tebu",
         "Manajemen pengairan dan irigasi",
         "Pengendalian OPT tebu",
         "Sustainable farming practices"] }),
   ("PL-2024-P0154",
    { training_name := "Operasional Tanaman Sawit - Advanced Plantation Management"
      school := "Operasional Tanaman Sawit (On Farm)"
      target_division := "plantation"
      target_level := "Manager"
      duration_days := 4
      cost := 7500000
      job_family := "Tanaman"
      learning_objectives :=
        ["Advanced plantation management techniques",
         "Yield optimization strategies",
         "Team leadership in plantation operations",
         "Environmental sustainability practices"] }),
   ("FC-2024-201",
    { training_name := "Operasional Pabrik Kelapa Sawit - Process Optimization"
      school := "Operasional Pabrik Kelapa Sawit (Off Farm)"
      target_division := "factory"
      target_level := "ALL"
      duration_days := 6
      cost := 8000000
      job_family := "Pabrik"
      learning_objectives :=
        ["Advanced palm oil processing techniques",
         "Quality control and assurance",
         "Equipment maintenance and optimization",
         "Safety protocols and procedures"] }),
   ("FC-2024-202",
    { training_name := "Manufacturing Excellence & Lean Production"
      school := "Operasional Pabrik Kelapa Sawit (Off Farm)"
      target_division := "factory"
      target_level := "Supervisor"
      duration_days := 4
      cost := 6500000
      job_family := "Pabrik"
      learning_objectives :=
        ["Lean manufacturing principles",
         "Continuous improvement methodologies",
         "Team leadership in manufacturing",
         "Waste reduction techniques"] }),
   ("FN-2024-301",
    { training_name := "Financial Management for Leaders"
      school := "Financial Management for Leader (Jakarta)"
      target_division := "finance"
      target_level := "Manager"
      duration_days := 5
      cost := 9000000
      job_family := "Keuangan"
      learning_objectives :=
        ["Strategic financial planning",
         "Investment analysis and decision making",
         "Financial risk management",
         "Budget planning and control",
         "Leadership in finance function"] }),
   ("FN-2024-302",
    { training_name := "Advanced Accounting & Financial Reporting"
      school := "Akuntansi & Keuangan"
      target_division := "finance"
      target_level := "ALL"
      duration_days := 4
      cost := 5500000
      job_family := "Keuangan"
      learning_objectives :=
        ["Advanced accounting principles",
         "Financial reporting standards",
         "Digital accounting systems",
         "Compliance and regulatory requirements"] }),
   ("HR-2024-401",
    { training_name := "Strategic Human Resource Management"
      school := "SDM"
      target_division := "hr"
      target_level := "Manager"
      duration_days := 5
      cost := 7000000
      job_family := "SDM"
      learning_objectives :=
        ["Strategic HR planning and execution",
         "Talent management and development",
         "Employee engagement strategies",
         "Performance management systems",
         "Diversity and inclusion practices"] }),
   ("HR-2024-402",
    { training_name := "Employee Development & Training Design"
      school := "Program Keahlian Khusus"
      target_division := "hr"
      target_level := "ALL"
      duration_days := 4
      cost := 5000000
      job_family := "SDM"
      learning_objectives :=
        ["Training needs analysis",
         "Learning program design",
         "Adult learning principles",
         "Training evaluation methods"] }),
   ("IT-2024-501",
    { training_name := "Digital Transformation & Technology Leadership"
      school := "Teknologi Informasi"
      target_division := "it"
      target_level := "Manager"
      duration_days := 6
      cost := 10000000
      job_family := "IT"
      learning_objectives :=
        ["Digital transformation strategies",
         "IT governance and management",
         "Emerging technology evaluation",
         "Cybersecurity leadership",
         "Innovation management in IT"] }),
   ("IT-2024-502",
    { training_name := "Information Systems & Data Analytics"
      school := "Teknologi Informasi"
      target_division := "it"
      target_level := "ALL"
      duration_days := 5
      cost := 7500000
      job_family := "IT"
      learning_objectives :=
        ["Database design and management",
         "Data analytics and visualization",
         "Business intelligence systems",
         "System integration techniques"] }),
   ("PR-2024-601",
    { training_name := "Strategic Procurement & Supply Chain Management"
      school := "Pengadaan"
      target_division := "procurement"
      target_level := "Manager"
      duration_days := 5
      cost := 8000000
      job_family := "Pengadaan"
      learning_objectives :=
        ["Strategic sourcing methodologies",
         "Supplier relationship management",
         "Contract negotiation and management",
         "Supply chain optimization",
         "Risk management in procurement"] }),
   ("PR-2024-602",
    { training_name := "Procurement Operations & Vendor Management"
      school := "Pengadaan"
      target_division := "procurement"
      target_level := "ALL"
      duration_days := 4
      cost := 5500000
      job_family := "Pengadaan"
      learning_objectives :=
        ["Procurement processes and procedures",
         "Vendor evaluation and selection",
         "Cost analysis and budgeting",
         "Compliance and ethics in procurement"] }),
   ("AD-2024-701",
    { training_name := "Internal Audit & Risk Management Leadership"
      school := "Audit Internal & Manajemen Risiko"
      target_division := "audit"
      target_level := "Manager"
      duration_days := 6
      cost := 9500000
      job_family := "Audit"
      learning_objectives :=
        ["Advanced internal auditing techniques",
         "Enterprise risk management",
         "Audit leadership and team management",
         "Regulatory compliance frameworks",
         "Fraud detection and prevention"] }),
   ("AD-2024-702",
    { training_name := "Risk Assessment & Control Systems"
      school := "Audit Internal dan Manajemen Risiko"
      target_division := "audit"
      target_level := "ALL"
      duration_days := 4
      cost := 6000000
      job_family := "Audit"
      learning_objectives :=
        ["Risk identification and assessment",
         "Internal control evaluation",
         "Audit documentation and reporting",
         "Technology-assisted audit techniques"] }),
   ("LG-2024-801",
    { training_name := "Corporate Law & Regulatory Compliance"
      school := "Hukum"
      target_division := "legal"
      target_level := "ALL"
      duration_days := 5
      cost := 7500000
      job_family := "Hukum"
      learning_objectives :=
        ["Corporate governance principles",
         "Regulatory compliance management",
         "Contract law and negotiations",
         "Employment law and regulations",
         "Business ethics and compliance"] }),
   ("ST-2024-901",
    { training_name := "Strategic Transformation & Change Management"
      school := "Transformasi Strategis"
      target_division := "strategy"
      target_level := "Manager"
      duration_days := 7
      cost := 12000000
      job_family := "Strategi"
      learning_objectives :=
        ["Strategic planning and execution",
         "Change management methodologies",
         "Digital transformation strategies",
         "Innovation management",
         "Organizational development"] }),
   ("ST-2024-902",
    { training_name := "Marketing Strategy & Customer Excellence"
      school := "Strategi Pemasaran"
      target_division := "marketing"
      target_level := "ALL"
      duration_days := 4
      cost := 6500000
      job_family := "Pemasaran"
      learning_objectives :=
        ["Market analysis and segmentation",
         "Customer relationship management",
         "Brand management and positioning",
         "Digital marketing strategies"] }),
   ("GM-2024-001",
    { training_name := "Executive Leadership Development Program"
      school := "Strategi SDM"
      target_division := "ALL"
      target_level := "Senior Manager"
      duration_days := 10
      cost := 15000000
      job_family := "Umum"
      learning_objectives :=
        ["Executive leadership skills",
         "Strategic thinking and planning",
         "Organizational transformation",
         "High-performance team building",
         "Stakeholder management",
         "Innovation and change leadership"] })]

/-! ### Gap Analyzer (`identify_priority_areas`, `get_priority_level`,
`_get_timeline`) -/

/-- The merged score dict `all_scores` of `identify_priority_areas`:
each group's scores with its prefix, in insertion order (core, then
managerial, then leadership). -/
def merged_scores (assessment_data : Assessment) : List (String × ℚ) :=
  (assessment_data.core_competency_scores.map fun p => ("core_" ++ p.1, p.2)) ++
  (assessment_data.managerial_competency_scores.map fun p => ("managerial_" ++ p.1, p.2)) ++
  (assessment_data.leadership_competency_scores.map fun p => ("leadership_" ++ p.1, p.2))

/-- The comparison used by `sorted(all_scores.items(), key=lambda x: x[1])`. -/
def scoreLE (x y : String × ℚ) : Prop := x.2 ≤ y.2

instance : DecidableRel scoreLE := fun x y => inferInstanceAs (Decidable (x.2 ≤ y.2))

instance : IsTotal (String × ℚ) scoreLE := ⟨fun x y => le_total x.2 y.2⟩

instance : IsTrans (String × ℚ) scoreLE := ⟨fun _ _ _ h h' => le_trans h h'⟩

/-- `identify_priority_areas` (app.py 465-484): merge the three score
dicts with group prefixes, stable-sort ascending by score, keep the first
five. -/
def identify_priority_areas (assessment_data : Assessment) : List (String × ℚ) :=
  let priority_areas := List.insertionSort scoreLE (merged_scores assessment_data)
  priority_areas.take 5

/-- `get_priority_level` (app.py 486-495). -/
def get_priority_level (score : ℚ) : ℕ :=
  if score < 2.0 then 1
  else if score < 3.0 then 2
  else if score < 3.5 then 3
  else 4

/-- `_get_timeline` (app.py 669-677): the `timelines` dict lookup with
default `"To be scheduled"`. -/
def _get_timeline (priority_level : ℕ) : String :=
  if priority_level = 1 then "Immediate (within 1 month)"
  else if priority_level = 2 then "High Priority (within 3 months)"
  else if priority_level = 3 then "Medium Priority (within 6 months)"
  else if priority_level = 4 then "Low Priority (within 12 months)"
  else "To be scheduled"

/-! ### Keyword classifiers and Context Filter -/

/-- Keyword set of `is_management_training`. -/
def mgmt_keywords : List String :=
  ["strategi", "leadership", "management", "manajemen", "strategic", "executive"]

/-- Keyword set of `is_advanced_training`. -/
def advanced_keywords : List String :=
  ["advanced", "strategic", "transformasi", "leadership", "executive"]

/-- `management_keywords` inside `filter_by_context` (a different list
from `is_management_training`'s). -/
def management_filter_keywords : List String :=
  ["strategic", "leadership", "management", "manajemen", "transformasi"]

/-- `advanced_keywords` inside `filter_by_context`'s junior branch
(a different list from `is_advanced_training`'s). -/
def junior_excluded_keywords : List String :=
  ["advanced", "strategic", "transformasi", "executive"]

/-- The strategic keyword list of `filter_by_context`'s senior branch. -/
def senior_added_keywords : List String :=
  ["strategic", "leadership", "transformasi"]

/-- Python `any(keyword in t.lower() for keyword in kws)`. -/
def containsAny (t : String) (kws : List String) : Bool :=
  kws.any fun k => strContains (lowerStr t) k

/-- `is_management_training` (app.py 497-502); `if not training_name`
is the empty-string test on this typed field. -/
def is_management_training (training_name : String) : Bool :=
  if training_name = "" then false
  else containsAny training_name mgmt_keywords

/-- `is_advanced_training` (app.py 504-509). -/
def is_advanced_training (training_name : String) : Bool :=
  if training_name = "" then false
  else containsAny training_name advanced_keywords

/-- First-occurrence deduplication; models Python's `list(set(filtered))`
(whose order the language does not specify). -/
def dedupFirstAux : List String → List String → List String
  | _, [] => []
  | seen, x :: xs =>
    if x ∈ seen then dedupFirstAux seen xs
    else x :: dedupFirstAux (x :: seen) xs

/-- Deduplication keeping the first occurrence of each string. -/
def dedupFirst (l : List String) : List String := dedupFirstAux [] l

/-- `filter_by_context` (app.py 511-539): start from all candidates, add
management matches for manager/supervisor positions, add division
matches, then either remove advanced candidates (junior) or add strategic
ones (senior), and deduplicate. -/
def filter_by_context (trainings : List String) (position division experience : String) :
    List String :=
  let filtered := trainings
  let filtered :=
    if strContains (lowerStr position) "manager" || strContains (lowerStr position) "supervisor" then
      filtered ++ trainings.filter (fun t => containsAny t management_filter_keywords)
    else filtered
  let division_trainings := (division_mapping.lookup (lowerStr division)).getD []
  let filtered :=
    if division_trainings.isEmpty then filtered
    else filtered ++ trainings.filter (fun t =>
      division_trainings.any fun dt => strContains (lowerStr t) (lowerStr dt))
  let filtered :=
    if lowerStr experience = "junior" then
      filtered.filter (fun t => !containsAny t junior_excluded_keywords)
    else if lowerStr experience = "senior" then
      filtered ++ trainings.filter (fun t => containsAny t senior_added_keywords)
    else filtered
  dedupFirst filtered

/-! ### Relevance Scorer -/

/-- The `position_multiplier` computed in `calculate_relevance_score`
(app.py 547-551). -/
def position_multiplier (employee_data : Assessment) (training_details : TrainingRecord) : ℚ :=
  if (strContains (lowerStr employee_data.current_position) "manager" ||
      strContains (lowerStr employee_data.current_position) "supervisor") &&
     is_management_training training_details.training_name
  then 1.5 else 1.0

/-- The `division_multiplier` (app.py 553-557). -/
def division_multiplier (employee_data : Assessment) (training_details : TrainingRecord) : ℚ :=
  if lowerStr training_details.target_division = lowerStr employee_data.division ∨
     lowerStr training_details.target_division = "all"
  then 1.3 else 1.0

/-- The `experience_multiplier` (app.py 559-566). -/
def experience_multiplier (employee_data : Assessment) (training_details : TrainingRecord) : ℚ :=
  if lowerStr employee_data.experience_level = "junior" then
    if is_advanced_training training_details.training_name then 1.0 else 1.2
  else if lowerStr employee_data.experience_level = "senior" then
    if is_advanced_training training_details.training_name then 1.2 else 1.0
  else 1.0

/-- `calculate_relevance_score` (app.py 541-569).  The `competency`
argument is unused, exactly as in the source. -/
def calculate_relevance_score (competency : String) (current_score : ℚ)
    (training_details : TrainingRecord) (employee_data : Assessment) : ℚ :=
  let base_score := 5.0 - current_score
  let final_score := base_score * position_multiplier employee_data training_details *
    division_multiplier employee_data training_details *
    experience_multiplier employee_data training_details
  max 0.1 (min 10.0 final_score)

/-! ### Training Resolver (`get_training_details`) -/

/-- The generic training template synthesized when no catalog entry
matches (app.py 592-602). -/
def generic_training (training_school : String) : TrainingRecord :=
  { training_id := "GENERIC_" ++ underscoreUpper training_school
    training_name := "Training Program for " ++ training_school
    school := training_school
    target_division := "general"
    target_level := "ALL"
    duration_days := 3
    cost := 5000000
    learning_objectives := ["Competency development", "Skill enhancement"]
    job_family := "General" }

/-- Exact-category tier: first catalog entry whose school contains the
whole (lower-cased) requested school name.  The source collects all
matches and returns element 0, which is this first match. -/
def exact_match_first (training_school : String) : Option (String × TrainingInfo) :=
  training_database.find? fun p =>
    strContains (lowerStr p.2.school) (lowerStr training_school)

/-- Partial tier: first catalog entry whose school contains any
whitespace-delimited word of the requested school name. -/
def partial_match_first (training_school : String) : Option (String × TrainingInfo) :=
  training_database.find? fun p =>
    (pyWords (lowerStr training_school)).any fun w => strContains (lowerStr p.2.school) w

/-- `get_training_details` (app.py 571-605): exact tier, then partial
tier, then the generic template.  The body of the Python `try` is total,
so the `except` branch is unreachable and the function always returns a
record. -/
def get_training_details (training_school : String) : TrainingRecord :=
  match exact_match_first training_school with
  | some m => { toTrainingInfo := m.2, training_id := m.1 }
  | none =>
    match partial_match_first training_school with
    | some m => { toTrainingInfo := m.2, training_id := m.1 }
    | none => generic_training training_school

/-! ### Recommendation Assembler -/

/-- Round-half-to-even to an integer, the rule of Python's built-in
`round` (modelled on exact decimals). -/
def roundHalfEven (q : ℚ) : ℤ :=
  let f : ℤ := q.num.fdiv q.den
  let r : ℚ := q - (f : ℚ)
  if 2 * r < 1 then f
  else if 1 < 2 * r then f + 1
  else if f % 2 = 0 then f else f + 1

/-- Python `round(x, 2)` used on the relevance score in `_build_response`. -/
def round2 (q : ℚ) : ℚ := (roundHalfEven (q * 100) : ℚ) / 100

/-- The sort key of `recommendations.sort(key=lambda x: (x['priority_level'],
-x['relevance_score']))`: ascending priority level, descending relevance
within a level. -/
def recLE (x y : Recommendation) : Prop :=
  x.priority_level < y.priority_level ∨
    (x.priority_level = y.priority_level ∧ y.relevance_score ≤ x.relevance_score)

instance : DecidableRel recLE := fun x y =>
  inferInstanceAs (Decidable (x.priority_level < y.priority_level ∨
    (x.priority_level = y.priority_level ∧ y.relevance_score ≤ x.relevance_score)))

/-- The formatted-recommendation dict built for `enumerate` index `i`
inside `_build_response`'s loop (app.py 701-711). -/
def format_recommendation (p : ℕ × Recommendation) : FormattedRecommendation :=
  { priority := p.1
    competency_gap := p.2.competency_gap
    current_score := p.2.current_score
    target_score := min 5.0 (p.2.current_score + p.2.expected_improvement)
    recommended_training := p.2.training_details
    relevance_score := round2 p.2.relevance_score
    expected_improvement := p.2.expected_improvement
    timeline := p.2.timeline }

/-- `_build_response` (app.py 679-722), normal path.  The loop that fills
`recommendations` and the development-path buckets in one pass is split
into an indexed map and three order-preserving filters, which build the
same lists.  The guard `if rec['training_details']` in the two sums is
vacuous here because `training_details` is always a record. -/
def _build_response (today : String) (assessment_data : Assessment)
    (recommendations : List Recommendation) : Response :=
  let total_cost := (recommendations.map fun r => r.training_details.cost).sum
  let total_duration := (recommendations.map fun r => r.training_details.duration_days).sum
  { error := none
    employee_id := assessment_data.employee_id.getD "Unknown"
    assessment_date := some today
    recommendations := (List.enumFrom 1 recommendations).map format_recommendation
    development_path := some
      { critical :=
          (recommendations.filter fun r => r.priority_level == 1).map (fun r => r.competency_gap)
        high_priority :=
          (recommendations.filter fun r => r.priority_level == 2).map (fun r => r.competency_gap)
        medium_priority :=
          (recommendations.filter fun r => r.priority_level != 1 && r.priority_level != 2).map
            (fun r => r.competency_gap) }
    summary :=
      { total_recommendations := recommendations.length
        total_estimated_cost := total_cost
        total_estimated_duration := total_duration } }

/-- The error-shaped response built in the `except` branches of
`recommend_training` (app.py 662-667) and `_build_response` (725-730). -/
def error_response (e : String) (assessment_data : Assessment) : Response :=
  { error := some e
    employee_id := assessment_data.employee_id.getD "Unknown"
    assessment_date := none
    recommendations := []
    development_path := none
    summary :=
      { total_recommendations := 0
        total_estimated_cost := 0
        total_estimated_duration := 0 } }

/-- Steps 1-2 of `recommend_training` (app.py 610-651): the
`recommendations` list accumulated over the priority areas, one entry per
(gap, filtered school) pair. -/
def generate_recommendations (assessment_data : Assessment) : List Recommendation :=
  let priority_areas := identify_priority_areas assessment_data
  priority_areas.foldl
    (fun acc pa =>
      let potential_trainings := (competency_training_mapping.lookup pa.1).getD []
      if potential_trainings.isEmpty then acc
      else
        let filtered_trainings := filter_by_context potential_trainings
          assessment_data.current_position assessment_data.division
          assessment_data.experience_level
        acc ++ filtered_trainings.map (fun training_school =>
          let training_details := get_training_details training_school
          { competency_gap := pa.1
            current_score := pa.2
            training_details := training_details
            relevance_score :=
              calculate_relevance_score pa.1 pa.2 training_details assessment_data
            priority_level := get_priority_level pa.2
            expected_improvement := min 2.0 (5.0 - pa.2)
            timeline := _get_timeline (get_priority_level pa.2) }))
    []

/-- `recommend_training` (app.py 607-658), the body of the `try`: gap
analysis, per-gap candidate generation, stable sort by
(priority level, -relevance), truncation to three, response building.
`today` is the date stamped by `datetime.now().strftime('%Y-%m-%d')`. -/
def recommend_training (today : String) (assessment_data : Assessment) : Response :=
  let top_recommendations :=
    (List.insertionSort recLE (generate_recommendations assessment_data)).take 3
  _build_response today assessment_data top_recommendations

/-- The `try/except` wrapper of `recommend_training` (app.py 609, 660-667).
The embedded body is total, so whether an internal fault occurs — and its
description — is supplied by the oracle argument `fault`; the handler
converts it into the error-shaped response. -/
def recommend_training_caught (fault : Option String) (today : String)
    (assessment_data : Assessment) : Response :=
  match fault with
  | some e => error_response e assessment_data
  | none => recommend_training today assessment_data

/-! ### Concrete inputs used by the evaluation theorems -/

/-- Scenario A of the spec: one core competency `information_seeking = 1.2`,
division `it`, position `Manager`, experience `senior`. -/
def scenarioA : Assessment :=
  { employee_id := some "EMP001"
    current_position := "Manager"
    division := "it"
    experience_level := "senior"
    core_competency_scores := [("information_seeking", 1.2)]
    managerial_competency_scores := []
    leadership_competency_scores := [] }

/-- An assessment with no scores and no context. -/
def emptyAssessment : Assessment :=
  { employee_id := none
    current_position := ""
    division := ""
    experience_level := ""
    core_competency_scores := []
    managerial_competency_scores := []
    leadership_competency_scores := [] }

/-- A response with its `assessment_date` field blanked, to compare two
responses up to the stamped call date. -/
def except_date (r : Response) : Response := { r with assessment_date := none }

/-! ### Helper lemmas -/

theorem mem_dedupFirstAux {x : String} :
    ∀ (l seen : List String), x ∈ dedupFirstAux seen l ↔ x ∈ l ∧ x ∉ seen := by
  intro l
  induction l with
  | nil => intro seen; simp [dedupFirstAux]
  | cons y ys ih =>
    intro seen
    by_cases hy : y ∈ seen
    · rw [dedupFirstAux, if_pos hy, ih]
      constructor
      · rintro ⟨h1, h2⟩
        exact ⟨List.mem_cons_of_mem y h1, h2⟩
      · rintro ⟨h1, h2⟩
        rcases List.mem_cons.1 h1 with h | h
        · subst h; exact absurd hy h2
        · exact ⟨h, h2⟩
    · rw [dedupFirstAux, if_neg hy]
      rw [List.mem_cons, ih]
      constructor
      · rintro (h | ⟨h1, h2⟩)
        · subst h; exact ⟨List.mem_cons_self x ys, hy⟩
        · exact ⟨List.mem_cons_of_mem y h1,
            fun hs => h2 (List.mem_cons_of_mem y hs)⟩
      · rintro ⟨h1, h2⟩
        rcases List.mem_cons.1 h1 with h | h
        · exact Or.inl h
        · by_cases hxy : x = y
          · exact Or.inl hxy
          · exact Or.inr ⟨h, fun hs => (List.mem_cons.1 hs).elim hxy h2⟩

theorem mem_dedupFirst {x : String} {l : List String} :
    x ∈ dedupFirst l ↔ x ∈ l := by
  rw [dedupFirst, mem_dedupFirstAux]
  simp

theorem nodup_dedupFirstAux : ∀ (l seen : List String), (dedupFirstAux seen l).Nodup := by
  intro l
  induction l with
  | nil => intro seen; simp [dedupFirstAux]
  | cons y ys ih =>
    intro seen
    by_cases hy : y ∈ seen
    · rw [dedupFirstAux, if_pos hy]; exact ih seen
    · rw [dedupFirstAux, if_neg hy]
      refine List.nodup_cons.2 ⟨fun hmem => ?_, ih (y :: seen)⟩
      exact (mem_dedupFirstAux ys (y :: seen)).1 hmem |>.2 (List.mem_cons_self y seen)

theorem nodup_dedupFirst (l : List String) : (dedupFirst l).Nodup :=
  nodup_dedupFirstAux l []

theorem enumFrom_format_cost :
    ∀ (n : ℕ) (recs : List Recommendation),
      (((List.enumFrom n recs).map format_recommendation).map
        fun fr => fr.recommended_training.cost) =
      recs.map fun r => r.training_details.cost := by
  intro n recs
  induction recs generalizing n with
  | nil => rfl
  | cons r rs ih => simp [List.enumFrom, format_recommendation, ih]

theorem enumFrom_format_duration :
    ∀ (n : ℕ) (recs : List Recommendation),
      (((List.enumFrom n recs).map format_recommendation).map
        fun fr => fr.recommended_training.duration_days) =
      recs.map fun r => r.training_details.duration_days := by
  intro n recs
  induction recs generalizing n with
  | nil => rfl
  | cons r rs ih => simp [List.enumFrom, format_recommendation, ih]

theorem _build_response_invariants (today : String) (a : Assessment)
    (recs : List Recommendation) :
    (_build_response today a recs).recommendations.length = recs.length ∧
    (_build_response today a recs).summary.total_recommendations = recs.length ∧
    (_build_response today a recs).summary.total_estimated_cost =
      ((_build_response today a recs).recommendations.map
        fun fr => fr.recommended_training.cost).sum ∧
    (_build_response today a recs).summary.total_estimated_duration =
      ((_build_response today a recs).recommendations.map
        fun fr => fr.recommended_training.duration_days).sum := by
  refine ⟨?_, rfl, ?_, ?_⟩
  · show ((List.enumFrom 1 recs).map format_recommendation).length = recs.length
    simp
  · show (recs.map fun r => r.training_details.cost).sum =
      (((List.enumFrom 1 recs).map format_recommendation).map
        fun fr => fr.recommended_training.cost).sum
    rw [enumFrom_format_cost]
  · show (recs.map fun r => r.training_details.duration_days).sum =
      (((List.enumFrom 1 recs).map format_recommendation).map
        fun fr => fr.recommended_training.duration_days).sum
    rw [enumFrom_format_duration]

/-! ### Claim theorems -/

/-- Claim C1: for every assessment input (and both the normal and the
caught-fault path), the response of `recommend_training` has at most 3
recommendations, `total_recommendations` equals the length of the
recommendation list, `total_estimated_cost` is the sum of the retained
recommendations' training costs, and `total_estimated_duration` the sum
of their `duration_days`. -/
theorem recommend_training_summary_invariants (fault : Option String) (today : String)
    (a : Assessment) :
    (recommend_training_caught fault today a).recommendations.length ≤ 3 ∧
    (recommend_training_caught fault today a).summary.total_recommendations =
      (recommend_training_caught fault today a).recommendations.length ∧
    (recommend_training_caught fault today a).summary.total_estimated_cost =
      ((recommend_training_caught fault today a).recommendations.map
        fun fr => fr.recommended_training.cost).sum ∧
    (recommend_training_caught fault today a).summary.total_estimated_duration =
      ((recommend_training_caught fault today a).recommendations.map
        fun fr => fr.recommended_training.duration_days).sum := by
  cases fault with
  | some e => exact ⟨Nat.zero_le 3, rfl, rfl, rfl⟩
  | none =>
    obtain ⟨h1, h2, h3, h4⟩ := _build_response_invariants today a
      ((List.insertionSort recLE (generate_recommendations a)).take 3)
    refine ⟨?_, ?_, h3, h4⟩
    · calc (recommend_training_caught none today a).recommendations.length
          = ((List.insertionSort recLE (generate_recommendations a)).take 3).length := h1
        _ ≤ 3 := by simp [List.length_take]
    · exact h2.trans h1.symm

/-- Claim C2: `identify_priority_areas` is the first-five prefix of the
stable ascending sort of the three prefixed score groups; its output is
sorted non-decreasing by score, has `min 5 n` entries for `n` supplied
scores, and exactly 5 entries whenever at least 5 scores were supplied. -/
theorem identify_priority_areas_spec (a : Assessment) :
    identify_priority_areas a = (List.insertionSort scoreLE (merged_scores a)).take 5 ∧
    List.Pairwise scoreLE (identify_priority_areas a) ∧
    (identify_priority_areas a).length = min 5 (merged_scores a).length ∧
    (5 ≤ (merged_scores a).length → (identify_priority_areas a).length = 5) := by
  refine ⟨rfl, ?_, ?_, ?_⟩
  · exact List.Pairwise.sublist (List.take_sublist 5 _)
      (List.sorted_insertionSort scoreLE (merged_scores a))
  · simp [identify_priority_areas, List.length_take]
  · intro h
    simp only [identify_priority_areas, List.length_take, List.length_insertionSort]
    omega

/-- Witness for C2 at a concrete six-score assessment. -/
theorem identify_priority_areas_spec_witness :
    5 ≤ (merged_scores
      { employee_id := none
        current_position := ""
        division := ""
        experience_level := ""
        core_competency_scores := [("a", 3.0), ("b", 1.5), ("c", 4.0)]
        managerial_competency_scores := [("d", 2.5), ("e", 3.5)]
        leadership_competency_scores := [("f", 1.0)] }).length ∧
    (identify_priority_areas
      { employee_id := none
        current_position := ""
        division := ""
        experience_level := ""
        core_competency_scores := [("a", 3.0), ("b", 1.5), ("c", 4.0)]
        managerial_competency_scores := [("d", 2.5), ("e", 3.5)]
        leadership_competency_scores := [("f", 1.0)] }).length = 5 :=
  ⟨by decide,
   (identify_priority_areas_spec
      { employee_id := none
        current_position := ""
        division := ""
        experience_level := ""
        core_competency_scores := [("a", 3.0), ("b", 1.5), ("c", 4.0)]
        managerial_competency_scores := [("d", 2.5), ("e", 3.5)]
        leadership_competency_scores := [("f", 1.0)] }).2.2.2 (by decide)⟩

/-- Claim C3: `get_priority_level` realizes the four score bands with the
boundaries 2.0, 3.0 and 3.5 belonging to the higher band, so the bands
cover every score without overlap. -/
theorem get_priority_level_bands (score : ℚ) :
    (score < 2.0 → get_priority_level score = 1) ∧
    (2.0 ≤ score ∧ score < 3.0 → get_priority_level score = 2) ∧
    (3.0 ≤ score ∧ score < 3.5 → get_priority_level score = 3) ∧
    (3.5 ≤ score → get_priority_level score = 4) := by
  refine ⟨fun h => ?_, fun h => ?_, fun h => ?_, fun h => ?_⟩ <;>
    simp only [get_priority_level]
  · rw [if_pos h]
  · rw [if_neg (not_lt.mpr h.1), if_pos h.2]
  · rw [if_neg (not_lt.mpr (le_trans (by norm_num : (2.0:ℚ) ≤ 3.0) h.1)),
      if_neg (not_lt.mpr h.1), if_pos h.2]
  · rw [if_neg (not_lt.mpr (le_trans (by norm_num : (2.0:ℚ) ≤ 3.5) h)),
      if_neg (not_lt.mpr (le_trans (by norm_num : (3.0:ℚ) ≤ 3.5) h)),
      if_neg (not_lt.mpr h)]

/-- Witness for C3 at the three boundary scores. -/
theorem get_priority_level_bands_witness :
    get_priority_level 2.0 = 2 ∧ get_priority_level 3.0 = 3 ∧ get_priority_level 3.5 = 4 :=
  ⟨(get_priority_level_bands 2.0).2.1 ⟨by norm_num, by norm_num⟩,
   (get_priority_level_bands 3.0).2.2.1 ⟨by norm_num, by norm_num⟩,
   (get_priority_level_bands 3.5).2.2.2 (by norm_num)⟩

/-- Claim C4: `calculate_relevance_score` is exactly the clamped product
`(5.0 − current_score) × position × division × experience`, the result
always lies in `[0.1, 10.0]`, and each multiplier takes its boosted value
exactly under the claimed keyword/match condition (and is `1.0`
otherwise). -/
theorem calculate_relevance_score_spec (competency : String) (current_score : ℚ)
    (t : TrainingRecord) (a : Assessment) :
    calculate_relevance_score competency current_score t a =
      max 0.1 (min 10.0 ((5.0 - current_score) * position_multiplier a t *
        division_multiplier a t * experience_multiplier a t)) ∧
    0.1 ≤ calculate_relevance_score competency current_score t a ∧
    calculate_relevance_score competency current_score t a ≤ 10.0 ∧
    (position_multiplier a t = 1.5 ↔
      ((strContains (lowerStr a.current_position) "manager" ||
        strContains (lowerStr a.current_position) "supervisor") &&
       is_management_training t.training_name) = true) ∧
    (position_multiplier a t = 1.5 ∨ position_multiplier a t = 1.0) ∧
    (division_multiplier a t = 1.3 ↔
      (lowerStr t.target_division = lowerStr a.division ∨
       lowerStr t.target_division = "all")) ∧
    (division_multiplier a t = 1.3 ∨ division_multiplier a t = 1.0) ∧
    (experience_multiplier a t = 1.2 ↔
      ((lowerStr a.experience_level = "junior" ∧
        is_advanced_training t.training_name = false) ∨
       (lowerStr a.experience_level = "senior" ∧
        is_advanced_training t.training_name = true))) ∧
    (experience_multiplier a t = 1.2 ∨ experience_multiplier a t = 1.0) := by
  refine ⟨rfl, le_max_left _ _, max_le (by norm_num) (min_le_left _ _), ?_, ?_, ?_, ?_, ?_, ?_⟩
  · unfold position_multiplier
    split_ifs with h
    · exact ⟨fun _ => h, fun _ => rfl⟩
    · exact ⟨fun habs => absurd habs (by norm_num), fun hc => absurd hc h⟩
  · unfold position_multiplier
    split_ifs <;> simp
  · unfold division_multiplier
    split_ifs with h
    · exact ⟨fun _ => h, fun _ => rfl⟩
    · exact ⟨fun habs => absurd habs (by norm_num), fun hc => absurd hc h⟩
  · unfold division_multiplier
    split_ifs <;> simp
  · unfold experience_multiplier
    split_ifs with h1 h2 h3 h4 <;> simp_all <;> norm_num
  · unfold experience_multiplier
    split_ifs <;> simp

/-- Claim C5: the Training Resolver is total and tiered: it returns the
first exact-tier catalog match when one exists, otherwise the first
partial-tier match, otherwise the synthesized generic template; on the
input "Nonexistent School XYZ" it synthesizes the template with id
`GENERIC_NONEXISTENT_SCHOOL_XYZ`, 3 days and cost 5000000. -/
theorem get_training_details_spec :
    (∀ s m, exact_match_first s = some m →
      get_training_details s = { toTrainingInfo := m.2, training_id := m.1 }) ∧
    (∀ s m, exact_match_first s = none → partial_match_first s = some m →
      get_training_details s = { toTrainingInfo := m.2, training_id := m.1 }) ∧
    (∀ s, exact_match_first s = none → partial_match_first s = none →
      get_training_details s = generic_training s) ∧
    (get_training_details "Nonexistent School XYZ").training_id =
      "GENERIC_NONEXISTENT_SCHOOL_XYZ" ∧
    (get_training_details "Nonexistent School XYZ").duration_days = 3 ∧
    (get_training_details "Nonexistent School XYZ").cost = 5000000 := by
  refine ⟨?_, ?_, ?_, by decide, by decide, by decide⟩
  · intro s m hm
    unfold get_training_details
    rw [hm]
  · intro s m h1 h2
    unfold get_training_details
    rw [h1, h2]
  · intro s h1 h2
    unfold get_training_details
    rw [h1, h2]

/-- Witness for C5: both tiers miss on "Nonexistent School XYZ", so the
resolver hands back the synthesized generic template. -/
theorem get_training_details_spec_witness :
    get_training_details "Nonexistent School XYZ" =
      generic_training "Nonexistent School XYZ" :=
  get_training_details_spec.2.2.1 "Nonexistent School XYZ" (by decide) (by decide)

/-- Claim C6: for a junior employee, every candidate whose name contains
one of the advanced keywords is removed from the accumulated set, so no
returned school name contains any of them. -/
theorem filter_by_context_junior_excludes_advanced
    (trainings : List String) (position division experience : String)
    (hjunior : lowerStr experience = "junior") :
    ∀ t ∈ filter_by_context trainings position division experience,
      containsAny t junior_excluded_keywords = false := by
  intro t ht
  simp only [filter_by_context] at ht
  rw [hjunior, if_pos rfl] at ht
  rw [mem_dedupFirst, List.mem_filter] at ht
  simpa using ht.2

/-- Witness for C6: a junior call drops "Advanced Accounting" and keeps
"SDM", which carries no advanced keyword. -/
theorem filter_by_context_junior_excludes_advanced_witness :
    containsAny "SDM" junior_excluded_keywords = false :=
  filter_by_context_junior_excludes_advanced ["Advanced Accounting", "SDM"]
    "Staff" "hr" "junior" (by decide) "SDM" (by decide)

/-- Counterexample to claim C7 as stated: the response embeds the date of
the call (`datetime.now().strftime('%Y-%m-%d')` in `_build_response`), so
two calls with the identical assessment input made on different dates
return different response values. -/
theorem recommend_training_date_counterexample :
    recommend_training "2024-01-01" emptyAssessment ≠
      recommend_training "2024-01-02" emptyAssessment := by decide

/-- Claim C7 amended: two calls of `recommend_training` with identical
assessment input against the unchanged catalog agree on every response
field except `assessment_date`, which records each call's current date;
in particular two calls on the same date return identical responses. -/
theorem recommend_training_deterministic_up_to_date (d₁ d₂ : String) (a : Assessment) :
    except_date (recommend_training d₁ a) = except_date (recommend_training d₂ a) := rfl

/-- Claim C8: a fault caught by the `try/except` of `recommend_training`
is converted into the error-shaped response: it carries the fault
description in `error`, the original employee id (`"Unknown"` when
absent), an empty recommendation list, and an all-zero summary; without a
fault the wrapper returns the normal response. -/
theorem recommend_training_caught_error_shape (e today : String) (a : Assessment) :
    recommend_training_caught (some e) today a = error_response e a ∧
    (error_response e a).error = some e ∧
    (error_response e a).employee_id = a.employee_id.getD "Unknown" ∧
    (error_response e a).recommendations = [] ∧
    (error_response e a).summary.total_recommendations = 0 ∧
    (error_response e a).summary.total_estimated_cost = 0 ∧
    (error_response e a).summary.total_estimated_duration = 0 ∧
    recommend_training_caught none today a = recommend_training today a :=
  ⟨rfl, rfl, rfl, rfl, rfl, rfl, rfl, rfl⟩

/-- Claim C9 (Scenario A): with the single core score
`information_seeking = 1.2`, division `it`, position `Manager`,
experience `senior`, the gap analyzer returns exactly that one prefixed
pair and the first recommendation of the response has `priority = 1` and
`competency_gap = "core_information_seeking"`. -/
theorem scenarioA_top_recommendation (today : String) :
    identify_priority_areas scenarioA = [("core_information_seeking", 1.2)] ∧
    (recommend_training today scenarioA).recommendations.head?.map
      (fun fr => (fr.priority, fr.competency_gap)) =
      some (1, "core_information_seeking") :=
  ⟨by decide, rfl⟩

/-- Claim C10: `filter_by_context` never invents a school name — its
result is a subset of the input candidate list — and the returned list is
duplicate-free. -/
theorem filter_by_context_subset_nodup
    (trainings : List String) (position division experience : String) :
    (∀ t ∈ filter_by_context trainings position division experience, t ∈ trainings) ∧
    (filter_by_context trainings position division experience).Nodup := by
  constructor
  · intro t ht
    simp only [filter_by_context] at ht
    rw [mem_dedupFirst] at ht
    split_ifs at ht
    all_goals try simp only [List.mem_append, List.mem_filter] at ht
    all_goals tauto
  · exact nodup_dedupFirst _

/-- Witness for C10: a member of the filtered output is indeed drawn from
the input candidates. -/
theorem filter_by_context_subset_nodup_witness :
    "Teknologi Informasi" ∈ ["Teknologi Informasi", "Strategi SDM"] :=
  (filter_by_context_subset_nodup ["Teknologi Informasi", "Strategi SDM"]
    "Manager" "it" "senior").1 "Teknologi Informasi" (by decide)
